import Mathlib

/-!
Verification of the routing-label derivation and evaluation engine
(prepare_data.py / optimize.py / evaluate.py).

Text patterns from the source are embedded as executable scanners over
lists of characters.  Each Python regular expression in the source is
translated into a dedicated matcher with the same search semantics:
word boundaries, case folding for patterns compiled with re.I, and a
dot that does not cross newlines.
-/

/-- Word character, mirroring the `\w` class on ASCII input. -/
def isWordChar (c : Char) : Bool := c.isAlphanum || c == '_'

/-- Whitespace, mirroring the `\s` class on ASCII input. -/
def isSpaceChar (c : Char) : Bool :=
  c == ' ' || c == '\t' || c == '\n' || c.toNat == 13 || c.toNat == 11 || c.toNat == 12

/-- ASCII lower-casing of one character (patterns compiled with `re.I`). -/
def asciiLower (c : Char) : Char :=
  if 64 < c.toNat && c.toNat < 91 then Char.ofNat (c.toNat + 32) else c

/-- The text of a prompt, lower-cased, as a character list. -/
def lowerData (s : String) : List Char := s.data.map asciiLower

/-- Match the literal word `w` as a prefix of `s`, then hand the rest to `k`. -/
def litThen : List Char → (List Char → Bool) → List Char → Bool
  | [], k, s => k s
  | _ :: _, _, [] => false
  | a :: w, k, b :: s => a == b && litThen w k s

/-- A word boundary holds before the current position (`prev` is the
preceding character, `none` at the start of the text). -/
def boundaryBefore : Option Char → Bool
  | none => true
  | some c => !isWordChar c

/-- A word boundary holds after a just-matched word: the next character,
if any, is not a word character. -/
def noWordNext : List Char → Bool
  | [] => true
  | c :: _ => !isWordChar c

/-- Search semantics: try the position matcher `f` at every position of
the text, tracking the preceding character for boundary checks. -/
def searchPos (f : Option Char → List Char → Bool) : Option Char → List Char → Bool
  | prev, [] => f prev []
  | prev, c :: rest => f prev (c :: rest) || searchPos f (some c) rest

/-- Scan forward for the position matcher `g`, consuming intermediate
characters as the `.*` of the source patterns does: a newline stops the
scan because `.` does not match a newline. -/
def scanNoNL (g : Option Char → List Char → Bool) : Option Char → List Char → Bool
  | prev, [] => g prev []
  | prev, c :: rest => g prev (c :: rest) || (!(c == '\n') && scanNoNL g (some c) rest)

/-- Does the whole word `w` occur in the text?  Embeds `\bw\b`. -/
def hasWord (w : String) (s : List Char) : Bool :=
  searchPos (fun prev t => boundaryBefore prev && litThen w.data noWordNext t) none s

/-- Does a word starting with the stem `w` occur?  Embeds `\bw` with no
trailing boundary. -/
def hasWordStem (w : String) (s : List Char) : Bool :=
  searchPos (fun prev t => boundaryBefore prev && litThen w.data (fun _ => true) t) none s

/-- Any of the whole words occurs.  Embeds `\b(w1|w2|...)\b`. -/
def hasAnyWord (ws : List String) (s : List Char) : Bool :=
  ws.any (fun w => hasWord w s)

/-- Embeds `\bA\b.*\b(B1|B2|...)\b`: the whole word `a`, then later on the
same line one of the whole words `bs`. -/
def wordThenWordNoNL (a : String) (bs : List String) (s : List Char) : Bool :=
  searchPos (fun prev t => boundaryBefore prev &&
    litThen a.data (fun rest => noWordNext rest &&
      scanNoNL (fun p2 t2 => boundaryBefore p2 &&
        bs.any (fun b => litThen b.data noWordNext t2)) (some '_') rest) t) none s

/-- Embeds `\bA\b.*\b(B1|B2|...)` (no boundary after the alternatives). -/
def wordThenWordStemNoNL (a : String) (bs : List String) (s : List Char) : Bool :=
  searchPos (fun prev t => boundaryBefore prev &&
    litThen a.data (fun rest => noWordNext rest &&
      scanNoNL (fun p2 t2 => boundaryBefore p2 &&
        bs.any (fun b => litThen b.data (fun _ => true) t2)) (some '_') rest) t) none s

/-- Embeds `\bA.*B`: a word starting with `a`, then `b` anywhere later on
the same line, no boundary requirements on `b`. -/
def wordStemThenSubstrNoNL (a b : String) (s : List Char) : Bool :=
  searchPos (fun prev t => boundaryBefore prev &&
    litThen a.data (fun rest =>
      scanNoNL (fun _ t2 => litThen b.data (fun _ => true) t2) none rest) t) none s

/-- Embeds `\bA.?B`: the stem `a`, at most one intervening non-newline
character, then `b`, with no trailing boundary. -/
def wordGapOptStem (a b : String) (s : List Char) : Bool :=
  searchPos (fun prev t => boundaryBefore prev &&
    litThen a.data (fun rest =>
      litThen b.data (fun _ => true) rest ||
      (match rest with
       | [] => false
       | c :: r2 => !(c == '\n') && litThen b.data (fun _ => true) r2)) t) none s

/-- Embeds `\bA[- ]?B\b`: the two words joined directly or by one hyphen
or space, as a whole word. -/
def hyphenWord (a b : String) (s : List Char) : Bool :=
  searchPos (fun prev t => boundaryBefore prev &&
    litThen a.data (fun rest =>
      litThen b.data noWordNext rest ||
      (match rest with
       | [] => false
       | c :: r2 => (c == '-' || c == ' ') && litThen b.data noWordNext r2)) t) none s

/-- Tail of the auth-service pattern: `service\b.*\bsite\b`. -/
def svcSiteTail (rest : List Char) : Bool :=
  litThen "service".data (fun r2 => noWordNext r2 &&
    scanNoNL (fun p2 t2 => boundaryBefore p2 &&
      litThen "site".data noWordNext t2) (some '_') r2) rest

/-- Embeds `\bauth[- ]?service\b.*\bsite\b`. -/
def authServiceSite (s : List Char) : Bool :=
  searchPos (fun prev t => boundaryBefore prev &&
    litThen "auth".data (fun rest =>
      svcSiteTail rest ||
      (match rest with
       | [] => false
       | c :: r2 => (c == '-' || c == ' ') && svcSiteTail r2)) t) none s

/-- After `\s*`, one of the whole words `ws`: at every point either one of
the words completes the match or one more whitespace character is taken. -/
def wsStarWords (ws : List String) : List Char → Bool
  | [] => ws.any (fun w => litThen w.data noWordNext [])
  | c :: r => (ws.any (fun w => litThen w.data noWordNext (c :: r))) ||
      (isSpaceChar c && wsStarWords ws r)

/-- Embeds `\bA\s+(B1|B2|...)\b`: the stem `a`, at least one whitespace
character, then one of the whole words. -/
def wordThenWsWords (a : String) (bs : List String) (s : List Char) : Bool :=
  searchPos (fun prev t => boundaryBefore prev &&
    litThen a.data (fun rest =>
      match rest with
      | [] => false
      | c :: r => isSpaceChar c && wsStarWords bs r) t) none s

/-- Embeds `\bclean\s*up\b`. -/
def cleanUp (s : List Char) : Bool :=
  searchPos (fun prev t => boundaryBefore prev &&
    litThen "clean".data (fun rest => wsStarWords ["up"] rest) t) none s

/-- Case-insensitive whole-word pattern on a prompt. -/
def pWord (w : String) : String → Bool := fun s => hasWord w (lowerData s)

/-- Case-insensitive word-stem pattern on a prompt. -/
def pStem (w : String) : String → Bool := fun s => hasWordStem w (lowerData s)

/-- RISK_PATTERNS table from prepare_data.py: each risk category with its
keyword patterns, in source order.  The RSC pattern is the only one the
source compiles without `re.I`, so it alone reads the raw text. -/
def RISK_PATTERNS : List (String × List (String → Bool)) :=
  [("modifies-existing-runtime",
    [fun s => hasAnyWord ["fix", "update", "modify", "change", "patch", "refactor"] (lowerData s),
     fun s => hasAnyWord ["existing", "current", "legacy"] (lowerData s),
     fun s => wordThenWordNoNL "query" ["prisma", "sql"] (lowerData s)]),
   ("schema-migration",
    [pWord "prisma",
     pWord "migration",
     fun s => wordGapOptStem "backward" "compat" (lowerData s),
     fun s => wordThenWordNoNL "schema" ["change", "update", "add"] (lowerData s)]),
   ("large-scope-refactor",
    [pStem "modulariz",
     pStem "restructur",
     pWord "refactor"]),
   ("cross-service",
    [fun s => hyphenWord "cross" "repo" (lowerData s),
     fun s => hyphenWord "multi" "service" (lowerData s),
     fun s => authServiceSite (lowerData s)]),
   ("rsc-serialization",
    [fun s => wordGapOptStem "server" "component" (lowerData s),
     fun s => hasWord "RSC" s.data,
     pWord "serialization"]),
   ("test-infrastructure",
    [fun s => wordStemThenSubstrNoNL "fix" "test" (lowerData s),
     pWord "pytest",
     fun s => wordThenWordStemNoNL "ci" ["fix", "broken", "fail"] (lowerData s)])]

/-- Per-category thresholds from detect_risk_flags. -/
def THRESHOLDS : List (String × Nat) :=
  [("modifies-existing-runtime", 3),
   ("schema-migration", 2),
   ("large-scope-refactor", 2),
   ("cross-service", 2),
   ("rsc-serialization", 1),
   ("test-infrastructure", 2)]

/-- detect_risk_flags from prepare_data.py: a category is emitted when the
number of its patterns matching the prompt reaches its threshold
(`THRESHOLDS.get(flag_name, 2)` in the source). -/
def detect_risk_flags (prompt : String) : List String :=
  (RISK_PATTERNS.filter
    (fun fp => (List.lookup fp.1 THRESHOLDS).getD 2 ≤ fp.2.countP (fun p => p prompt))).map
    Prod.fst

/-- TASK_TYPE_PATTERNS from prepare_data.py, in priority order. -/
def TASK_TYPE_PATTERNS : List (String × List (String → Bool)) :=
  [("bugfix", [pWord "fix", pWord "bug", pWord "broken", pWord "error"]),
   ("refactor", [pWord "refactor", pStem "restructur", fun s => cleanUp (lowerData s)]),
   ("test", [fun s => hasWord "test" (lowerData s) || hasWord "tests" (lowerData s),
             pWord "spec", pWord "coverage"]),
   ("documentation", [pStem "document", pWord "readme"]),
   ("infrastructure", [pStem "deploy", pStem "docker", pWord "migration"]),
   ("feature", [pWord "add", pStem "implement", pWord "create", pWord "new"])]

/-- Inner loops of classify_task_type: return the label of the first
category one of whose patterns matches. -/
def classifyAux (prompt : String) : List (String × List (String → Bool)) → String
  | [] => "unknown"
  | (t, ps) :: rest => if ps.any (fun p => p prompt) then t else classifyAux prompt rest

/-- classify_task_type from prepare_data.py. -/
def classify_task_type (prompt : String) : String :=
  classifyAux prompt TASK_TYPE_PATTERNS

/-- GREENFIELD_PATTERNS from prepare_data.py. -/
def GREENFIELD_PATTERNS : List (String → Bool) :=
  [fun s => wordThenWsWords "new" ["page", "component", "endpoint", "service"] (lowerData s),
   fun s => wordThenWsWords "create" ["a", "the", "new"] (lowerData s),
   fun s => wordThenWsWords "add" ["a", "the", "new"] (lowerData s),
   fun s => wordThenWsWords "build" ["a", "the", "new"] (lowerData s)]

/-- MODIFICATION_PATTERNS from prepare_data.py. -/
def MODIFICATION_PATTERNS : List (String → Bool) :=
  [pWord "fix", pWord "update", pWord "modify", pWord "refactor",
   pWord "change", pWord "remove", pWord "existing"]

/-- is_greenfield from prepare_data.py: greenfield only when the new-work
match count strictly exceeds the modification match count. -/
def is_greenfield (prompt : String) : Bool :=
  decide (MODIFICATION_PATTERNS.countP (fun p => p prompt) <
    GREENFIELD_PATTERNS.countP (fun p => p prompt))

/-- AGENT_MAP from prepare_data.py. -/
def AGENT_MAP : List (String × String) :=
  [("claude-opus-4-6", "claude"),
   ("claude-sonnet-4-5-20250929", "claude"),
   ("claude-haiku-4-5-20251001", "claude"),
   ("gpt-5.3-codex", "codex")]

/-- DEFAULT_MODEL from prepare_data.py. -/
def DEFAULT_MODEL : String := "claude-sonnet-4-5-20250929"

/-- The source fallback `re.match(r"o\d", ...)` anchored at the start:
the id begins with the letter o followed by a decimal digit. -/
def matchODigit (m : String) : Bool :=
  match m.data with
  | c :: d :: _ => c == 'o' && d.isDigit
  | _ => false

/-- `model_id.startswith(pre)` of the source, as an executable prefix
check on the character lists. -/
def strStartsWith (pre s : String) : Bool := pre.data.isPrefixOf s.data

/-- resolve_agent from prepare_data.py. -/
def resolve_agent (model_id : String) : String :=
  match List.lookup model_id AGENT_MAP with
  | some a => a
  | none =>
    if strStartsWith "claude-" model_id then "claude"
    else if strStartsWith "gpt-" model_id || matchODigit model_id then "codex"
    else "claude"

/-- derive_cost_band from prepare_data.py. -/
def derive_cost_band (cost : Option ℚ) : String :=
  match cost with
  | none => "medium"
  | some c => if c < 10 then "low" else if c ≤ 25 then "medium" else "high"

/-- derive_confidence from prepare_data.py. -/
def derive_confidence (score : ℚ) (intervention_count : Int) : String :=
  if 0.95 ≤ score ∧ intervention_count = 0 then "high"
  else if 0.80 ≤ score then "medium"
  else "low"

/-- HistoricalRecord: one aggregated eval record, with every field the
source reads through `record.get` allowed to be absent. -/
structure HistoricalRecord where
  originalPrompt : Option String
  modelId : Option String
  score : Option ℚ
  interventionCount : Option Int
  workflowCost : Option ℚ
deriving Repr, DecidableEq

/-- RoutingLabel: the dict returned by derive_optimal_routing, and the
shape of any prediction. -/
structure RoutingLabel where
  recommended_model : String
  recommended_agent : String
  confidence : String
  risk_flags : List String
  cost_estimate : String
  reasoning : String
deriving Repr, DecidableEq

/-- build_reasoning embeds _build_reasoning from prepare_data.py (the
leading underscore of the source name is dropped). -/
def build_reasoning (model : String) (risk_flags : List String) (greenfield : Bool)
    (score : ℚ) : String :=
  let agent := resolve_agent model
  if greenfield && model == "gpt-5.3-codex" then
    "Greenfield task suitable for Codex at lower cost."
  else if risk_flags ≠ [] then
    "Risk flags [" ++ String.intercalate ", " risk_flags ++ "] suggest using " ++ agent ++ "."
  else if 0.95 ≤ score then
    "High-confidence routing to " ++ agent ++ " based on historical success."
  else
    "Default routing to " ++ agent ++ "."

/-- derive_optimal_routing from prepare_data.py, with the source defaults
for absent fields: empty prompt, DEFAULT_MODEL, score 0.0, zero
interventions, absent cost. -/
def derive_optimal_routing (record : HistoricalRecord) : RoutingLabel :=
  let prompt := record.originalPrompt.getD ""
  let model_id := record.modelId.getD DEFAULT_MODEL
  let score := record.score.getD 0
  let intervention_count := record.interventionCount.getD 0
  let workflow_cost := record.workflowCost
  let greenfield := is_greenfield prompt
  let recommended_model :=
    if model_id = "gpt-5.3-codex" ∧ score < 0.85 then DEFAULT_MODEL
    else if greenfield = true ∧ 0.90 ≤ score ∧ intervention_count = 0 then "gpt-5.3-codex"
    else if 0.85 ≤ score ∧ intervention_count ≤ 1 then model_id
    else DEFAULT_MODEL
  let risk_flags := detect_risk_flags prompt
  ⟨recommended_model, resolve_agent recommended_model,
   derive_confidence score intervention_count, risk_flags,
   derive_cost_band workflow_cost,
   build_reasoning recommended_model risk_flags greenfield score⟩

/-- LabeledExample: one dspy example built by load_training_data, with the
four input fields and the six label fields. -/
structure LabeledExample where
  task_prompt : String
  repo_name : String
  task_type_hint : String
  available_models : String
  recommended_model : String
  recommended_agent : String
  confidence : String
  risk_flags : List String
  cost_estimate : String
  reasoning : String
deriving Repr, DecidableEq

/-- routing_metric from optimize.py: 0.5 model match + 0.3 risk recall
+ 0.2 cost match.  The source turns the flag lists into Python sets
(falsy values become the empty set), embedded here as finsets. -/
def routing_metric (ex : LabeledExample) (prediction : RoutingLabel) : ℚ :=
  let model_correct : ℚ := if prediction.recommended_model = ex.recommended_model then 1 else 0
  let pred_flags : Finset String := prediction.risk_flags.toFinset
  let true_flags : Finset String := ex.risk_flags.toFinset
  let risk_recall : ℚ :=
    if 0 < true_flags.card then
      ((pred_flags ∩ true_flags).card : ℚ) / (true_flags.card : ℚ)
    else if pred_flags.card = 0 then 1 else 0.5
  let cost_correct : ℚ := if prediction.cost_estimate = ex.cost_estimate then 1 else 0
  0.5 * model_correct + 0.3 * risk_recall + 0.2 * cost_correct

/-- heuristic_baseline from evaluate.py: always recommend claude-sonnet. -/
def heuristic_baseline (_example : LabeledExample) : RoutingLabel :=
  ⟨"claude-sonnet-4-5-20250929", "claude", "medium", [], "medium",
   "Heuristic default: always use Claude Sonnet."⟩

/-- Accumulator of the evaluation loop in evaluate_predictions. -/
structure EvalAcc where
  correct_model : Nat
  correct_cost : Nat
  total_risk_recall : ℚ
  total_risk_precision : ℚ
  risk_examples : Nat
deriving Repr, DecidableEq

/-- One iteration of the loop body of evaluate_predictions: the ground
truth's flag list is turned into a set only when truthy, and the example
enters the risk statistics only when that set is non-empty. -/
def evalStep (predict_fn : LabeledExample → RoutingLabel) (acc : EvalAcc)
    (ex : LabeledExample) : EvalAcc :=
  let pred := predict_fn ex
  let cm := acc.correct_model + (if pred.recommended_model = ex.recommended_model then 1 else 0)
  let cc := acc.correct_cost + (if pred.cost_estimate = ex.cost_estimate then 1 else 0)
  let true_flags : Finset String := if ex.risk_flags = [] then ∅ else ex.risk_flags.toFinset
  let pred_flags : Finset String := pred.risk_flags.toFinset
  if true_flags ≠ ∅ then
    ⟨cm, cc,
     acc.total_risk_recall + ((pred_flags ∩ true_flags).card : ℚ) / (true_flags.card : ℚ),
     acc.total_risk_precision +
       (if pred_flags ≠ ∅ then ((pred_flags ∩ true_flags).card : ℚ) / (pred_flags.card : ℚ)
        else 0),
     acc.risk_examples + 1⟩
  else ⟨cm, cc, acc.total_risk_recall, acc.total_risk_precision, acc.risk_examples⟩

/-- EvaluationResult: the dict returned by evaluate_predictions. -/
structure EvalResult where
  label : String
  n : Nat
  model_accuracy : ℚ
  cost_accuracy : ℚ
  risk_recall : ℚ
  risk_precision : ℚ
  risk_examples : Nat
deriving Repr, DecidableEq

/-- evaluate_predictions from evaluate.py: run the prediction function
over every example, then aggregate; the risk averages fall back to 1.0
when no example carried a true risk flag, and the accuracies to 0 on an
empty set. -/
def evaluate_predictions (examples : List LabeledExample)
    (predict_fn : LabeledExample → RoutingLabel) (label : String) : EvalResult :=
  let acc := examples.foldl (evalStep predict_fn) ⟨0, 0, 0, 0, 0⟩
  let n := examples.length
  ⟨label, n,
   if n ≠ 0 then (acc.correct_model : ℚ) / (n : ℚ) else 0,
   if n ≠ 0 then (acc.correct_cost : ℚ) / (n : ℚ) else 0,
   if acc.risk_examples ≠ 0 then acc.total_risk_recall / (acc.risk_examples : ℚ) else 1,
   if acc.risk_examples ≠ 0 then acc.total_risk_precision / (acc.risk_examples : ℚ) else 1,
   acc.risk_examples⟩

/-- optimized_predict from evaluate.py: the external selector call is a
fallible collaborator; a per-example failure is caught and replaced by
the heuristic baseline prediction for that example. -/
def optimized_predict (selector : LabeledExample → Except String RoutingLabel)
    (ex : LabeledExample) : RoutingLabel :=
  match selector ex with
  | Except.ok result => result
  | Except.error _ => heuristic_baseline ex

/-- The record of the spec's first scenario: the prisma-schema bugfix run
on the cheap model with score 0.6 and two interventions. -/
def scenarioRecord : HistoricalRecord :=
  ⟨some "fix the broken query in the prisma schema", some "gpt-5.3-codex",
   some 0.6, some 2, none⟩

/-- An example with one true risk flag, used as evaluation witness data. -/
def exFlagged : LabeledExample :=
  ⟨"prisma migration", "repo", "infrastructure", "claude-sonnet-4-5-20250929,gpt-5.3-codex",
   "claude-sonnet-4-5-20250929", "claude", "medium", ["schema-migration"], "medium", "r"⟩

/-- An example with no true risk flags, used as evaluation witness data. -/
def exUnflagged : LabeledExample :=
  ⟨"say hello", "repo", "unknown", "claude-sonnet-4-5-20250929,gpt-5.3-codex",
   "claude-sonnet-4-5-20250929", "claude", "medium", [], "medium", "r"⟩

/-- A predictor that over-flags: it returns a strict superset of the true
flags of `exFlagged`. -/
def overFlagging : LabeledExample → RoutingLabel :=
  fun _ => ⟨"claude-sonnet-4-5-20250929", "claude", "medium",
    ["schema-migration", "cross-service"], "medium", "r"⟩

/-- A selector that fails on every example, modelling an external model
call that raises. -/
def failingSelector : LabeledExample → Except String RoutingLabel :=
  fun _ => Except.error "model call failed"

/-- The recommended model of derive_optimal_routing, written as the
explicit guarded cascade of the source. -/
lemma derive_model_eq (r : HistoricalRecord) :
    (derive_optimal_routing r).recommended_model =
      (if r.modelId.getD DEFAULT_MODEL = "gpt-5.3-codex" ∧ r.score.getD 0 < 0.85 then
        DEFAULT_MODEL
      else if is_greenfield (r.originalPrompt.getD "") = true ∧ 0.90 ≤ r.score.getD 0 ∧
          r.interventionCount.getD 0 = 0 then
        "gpt-5.3-codex"
      else if 0.85 ≤ r.score.getD 0 ∧ r.interventionCount.getD 0 ≤ 1 then
        r.modelId.getD DEFAULT_MODEL
      else DEFAULT_MODEL) :=
  rfl

/-- C1: derive_optimal_routing chooses recommended_model by the ordered
cascade, first matching branch winning: a cheap-model record scoring
below 0.85 gets the safe default regardless of all other signals;
otherwise a greenfield prompt with score at least 0.90 and zero interventions
gets the cheap model; otherwise score at least 0.85 with at most one
intervention keeps the model used; otherwise the safe default. -/
theorem c1_routing_cascade (r : HistoricalRecord) :
    (r.modelId.getD DEFAULT_MODEL = "gpt-5.3-codex" → r.score.getD 0 < 0.85 →
      (derive_optimal_routing r).recommended_model = DEFAULT_MODEL) ∧
    (¬(r.modelId.getD DEFAULT_MODEL = "gpt-5.3-codex" ∧ r.score.getD 0 < 0.85) →
      is_greenfield (r.originalPrompt.getD "") = true → 0.90 ≤ r.score.getD 0 →
      r.interventionCount.getD 0 = 0 →
      (derive_optimal_routing r).recommended_model = "gpt-5.3-codex") ∧
    (¬(r.modelId.getD DEFAULT_MODEL = "gpt-5.3-codex" ∧ r.score.getD 0 < 0.85) →
      ¬(is_greenfield (r.originalPrompt.getD "") = true ∧ 0.90 ≤ r.score.getD 0 ∧
        r.interventionCount.getD 0 = 0) →
      0.85 ≤ r.score.getD 0 → r.interventionCount.getD 0 ≤ 1 →
      (derive_optimal_routing r).recommended_model = r.modelId.getD DEFAULT_MODEL) ∧
    (¬(r.modelId.getD DEFAULT_MODEL = "gpt-5.3-codex" ∧ r.score.getD 0 < 0.85) →
      ¬(is_greenfield (r.originalPrompt.getD "") = true ∧ 0.90 ≤ r.score.getD 0 ∧
        r.interventionCount.getD 0 = 0) →
      ¬(0.85 ≤ r.score.getD 0 ∧ r.interventionCount.getD 0 ≤ 1) →
      (derive_optimal_routing r).recommended_model = DEFAULT_MODEL) := by
  refine ⟨?_, ?_, ?_, ?_⟩
  · intro ha hb
    rw [derive_model_eq, if_pos ⟨ha, hb⟩]
  · intro h1 ha hb hc
    rw [derive_model_eq, if_neg h1, if_pos ⟨ha, hb, hc⟩]
  · intro h1 h2 ha hb
    rw [derive_model_eq, if_neg h1, if_neg h2, if_pos ⟨ha, hb⟩]
  · intro h1 h2 h3
    rw [derive_model_eq, if_neg h1, if_neg h2, if_neg h3]

/-- C1 witness: the cascade applied to the scenario record (branch one)
and to a default-model record with score 0.9 and one intervention
(branch three). -/
theorem c1_witness :
    (derive_optimal_routing scenarioRecord).recommended_model = DEFAULT_MODEL ∧
    (derive_optimal_routing
      ⟨none, some DEFAULT_MODEL, some 0.9, some 1, none⟩).recommended_model =
      DEFAULT_MODEL := by
  constructor
  · exact (c1_routing_cascade scenarioRecord).1 rfl (by show (0.6 : ℚ) < 0.85; norm_num)
  · refine (c1_routing_cascade
      ⟨none, some DEFAULT_MODEL, some 0.9, some 1, none⟩).2.2.1 ?_ ?_ ?_ ?_
    · intro h; exact absurd h.1 (by decide)
    · intro h; exact absurd h.1 (by decide)
    · show (0.85 : ℚ) ≤ 0.9; norm_num
    · show (1 : Int) ≤ 1; norm_num

/-- On the scenario record the low-scoring cheap-model branch fires. -/
lemma scenario_model_default :
    (derive_optimal_routing scenarioRecord).recommended_model = DEFAULT_MODEL := by
  have hc : scenarioRecord.modelId.getD DEFAULT_MODEL = "gpt-5.3-codex" ∧
      scenarioRecord.score.getD 0 < 0.85 := by
    refine ⟨rfl, ?_⟩
    show (0.6 : ℚ) < 0.85
    norm_num
  show (if scenarioRecord.modelId.getD DEFAULT_MODEL = "gpt-5.3-codex" ∧
      scenarioRecord.score.getD 0 < 0.85 then DEFAULT_MODEL else _) = DEFAULT_MODEL
  rw [if_pos hc]

/-- C6 counterexample: on the scenario record the derived label does
recommend the safe default model, but contrary to the claim the flag
"schema-migration" is not among the derived risk flags: only one of the
four schema-migration patterns (the word prisma) matches this prompt,
below the category threshold of 2. -/
theorem c6_counterexample :
    (derive_optimal_routing scenarioRecord).recommended_model = DEFAULT_MODEL ∧
    "schema-migration" ∉ (derive_optimal_routing scenarioRecord).risk_flags := by
  constructor
  · exact scenario_model_default
  · decide

/-- C6 amended: for the scenario record the derived recommended_model is
the safe default "claude-sonnet-4-5-20250929", and the derived risk-flag
list is empty (no category reaches its threshold on this prompt, the
schema-migration category matching only one pattern against its
threshold of 2). -/
theorem c6_scenario_amended :
    (derive_optimal_routing scenarioRecord).recommended_model =
      "claude-sonnet-4-5-20250929" ∧
    (derive_optimal_routing scenarioRecord).risk_flags = [] := by
  exact ⟨scenario_model_default, rfl⟩

/-- C8 counterexample: the id "a1" consists of a letter followed by a
digit, yet resolve_agent sends it to the claude agent, not the codex
agent: the source fallback only recognizes ids starting with the letter
o followed by a digit. -/
theorem c8_counterexample :
    resolve_agent "a1" = "claude" ∧ resolve_agent "a1" ≠ "codex" := by
  exact ⟨rfl, by decide⟩

/-- C8 amended: recommended_agent is always resolve_agent of
recommended_model, and resolve_agent is the deterministic function of
the model id alone: known ids map via the fixed table, ids starting with
"claude-" map to the claude agent, ids starting with "gpt-" or with the
letter o followed by a digit map to the codex agent, and any other id
maps to the claude agent. -/
theorem c8_agent_determinism (r : HistoricalRecord) (m : String) :
    (derive_optimal_routing r).recommended_agent =
      resolve_agent (derive_optimal_routing r).recommended_model ∧
    (∀ a, List.lookup m AGENT_MAP = some a → resolve_agent m = a) ∧
    (List.lookup m AGENT_MAP = none → strStartsWith "claude-" m = true →
      resolve_agent m = "claude") ∧
    (List.lookup m AGENT_MAP = none → strStartsWith "claude-" m = false →
      (strStartsWith "gpt-" m || matchODigit m) = true → resolve_agent m = "codex") ∧
    (List.lookup m AGENT_MAP = none → strStartsWith "claude-" m = false →
      (strStartsWith "gpt-" m || matchODigit m) = false → resolve_agent m = "claude") := by
  refine ⟨rfl, ?_, ?_, ?_, ?_⟩
  · intro a ha; simp [resolve_agent, ha]
  · intro h0 h1; simp [resolve_agent, h0, h1]
  · intro h0 h1 h2; simp [resolve_agent, h0, h1, h2]
  · intro h0 h1 h2; simp [resolve_agent, h0, h1, h2]

/-- C8 witness: the characterization applied at concrete ids. -/
theorem c8_witness :
    (derive_optimal_routing scenarioRecord).recommended_agent =
      resolve_agent (derive_optimal_routing scenarioRecord).recommended_model ∧
    resolve_agent "gpt-5.3-codex" = "codex" ∧
    resolve_agent "claude-next" = "claude" ∧
    resolve_agent "o3" = "codex" ∧
    resolve_agent "mystery-model" = "claude" :=
  ⟨(c8_agent_determinism scenarioRecord "x").1,
   (c8_agent_determinism scenarioRecord "gpt-5.3-codex").2.1 "codex" (by decide),
   (c8_agent_determinism scenarioRecord "claude-next").2.2.1 (by decide) (by decide),
   (c8_agent_determinism scenarioRecord "o3").2.2.2.1 (by decide) (by decide) (by decide),
   (c8_agent_determinism scenarioRecord "mystery-model").2.2.2.2 (by decide) (by decide)
     (by decide)⟩

/-- C9: derive_cost_band maps costs below 10 to "low", costs from 10 to
25 inclusive to "medium", costs above 25 to "high", and an absent cost
to "medium"; in particular 7 gives "low" and 30 gives "high". -/
theorem c9_cost_band (c : ℚ) :
    (c < 10 → derive_cost_band (some c) = "low") ∧
    (10 ≤ c → c ≤ 25 → derive_cost_band (some c) = "medium") ∧
    (25 < c → derive_cost_band (some c) = "high") ∧
    derive_cost_band none = "medium" ∧
    derive_cost_band (some 7) = "low" ∧
    derive_cost_band (some 30) = "high" := by
  refine ⟨?_, ?_, ?_, rfl, by norm_num [derive_cost_band], by norm_num [derive_cost_band]⟩
  · intro h; simp [derive_cost_band, h]
  · intro h1 h2; rw [derive_cost_band, if_neg (by linarith), if_pos h2]
  · intro h; rw [derive_cost_band, if_neg (by linarith), if_neg (by linarith)]

/-- C9 witness: the breakpoint behaviour at the concrete costs 7 and 30. -/
theorem c9_witness :
    derive_cost_band (some 7) = "low" ∧ derive_cost_band (some 30) = "high" :=
  ⟨(c9_cost_band 7).1 (by norm_num), (c9_cost_band 30).2.2.1 (by norm_num)⟩

/-- C10: when the score field is absent it is treated as 0.0, so neither
the keep-the-model branch nor the greenfield branch can fire: the
recommended model is always the safe default and the confidence is
always "low"; an absent modelId is likewise treated as the safe default
model. -/
theorem c10_absent_score (r : HistoricalRecord) (h : r.score = none) :
    (derive_optimal_routing r).recommended_model = DEFAULT_MODEL ∧
    (derive_optimal_routing r).confidence = "low" ∧
    (r.modelId = none →
      derive_optimal_routing r =
        derive_optimal_routing
          ⟨r.originalPrompt, some DEFAULT_MODEL, r.score, r.interventionCount,
           r.workflowCost⟩) := by
  obtain ⟨p, m, sc, ic, wc⟩ := r
  obtain rfl : sc = none := h
  refine ⟨?_, ?_, ?_⟩
  · by_cases hm : m.getD DEFAULT_MODEL = "gpt-5.3-codex"
    · rw [derive_model_eq]
      simp only [hm]
      norm_num
    · rw [derive_model_eq]
      simp only [hm]
      norm_num
  · show derive_confidence ((none : Option ℚ).getD 0) _ = "low"
    rw [derive_confidence, if_neg (by norm_num), if_neg (by norm_num)]
  · intro hm
    obtain rfl : m = none := hm
    rfl

set_option maxHeartbeats 1000000 in
/-- C2: routing_metric is the weighted blend 0.5 times the model match,
0.3 times the risk component (flag recall against a non-empty
ground-truth flag set; 1.0 on a mutually empty set, else 0.5), plus 0.2
times the cost-band match; the score always lies in the interval from 0
to 1 and equals exactly 1 when the prediction matches the truth in
model, flag set, and cost band. -/
theorem c2_routing_metric (e : LabeledExample) (p : RoutingLabel) :
    routing_metric e p =
      0.5 * (if p.recommended_model = e.recommended_model then (1 : ℚ) else 0) +
      0.3 * (if 0 < e.risk_flags.toFinset.card then
          ((p.risk_flags.toFinset ∩ e.risk_flags.toFinset).card : ℚ) /
            (e.risk_flags.toFinset.card : ℚ)
        else if p.risk_flags.toFinset.card = 0 then 1 else 0.5) +
      0.2 * (if p.cost_estimate = e.cost_estimate then (1 : ℚ) else 0) ∧
    0 ≤ routing_metric e p ∧ routing_metric e p ≤ 1 ∧
    (p.recommended_model = e.recommended_model →
      p.risk_flags.toFinset = e.risk_flags.toFinset →
      p.cost_estimate = e.cost_estimate → routing_metric e p = 1) := by
  set T : Finset String := e.risk_flags.toFinset with hT
  set P : Finset String := p.risk_flags.toFinset with hP
  set M : ℚ := if p.recommended_model = e.recommended_model then (1 : ℚ) else 0 with hM
  set R : ℚ := if 0 < T.card then ((P ∩ T).card : ℚ) / (T.card : ℚ)
    else if P.card = 0 then 1 else 0.5 with hR
  set C : ℚ := if p.cost_estimate = e.cost_estimate then (1 : ℚ) else 0 with hC
  have hform : routing_metric e p = 0.5 * M + 0.3 * R + 0.2 * C := rfl
  have hM01 : 0 ≤ M ∧ M ≤ 1 := by rw [hM]; constructor <;> (split <;> norm_num)
  have hC01 : 0 ≤ C ∧ C ≤ 1 := by rw [hC]; constructor <;> (split <;> norm_num)
  have hR01 : 0 ≤ R ∧ R ≤ 1 := by
    rw [hR]
    by_cases ht : 0 < T.card
    · rw [if_pos ht]
      have hc : ((P ∩ T).card : ℚ) ≤ (T.card : ℚ) := by
        exact_mod_cast Finset.card_le_card Finset.inter_subset_right
      have hpos : (0 : ℚ) < (T.card : ℚ) := by exact_mod_cast ht
      exact ⟨by positivity, by rw [div_le_one hpos]; exact hc⟩
    · rw [if_neg ht]
      constructor <;> (split <;> norm_num)
  refine ⟨hform, ?_, ?_, ?_⟩
  · rw [hform]; linarith [hM01.1, hR01.1, hC01.1]
  · rw [hform]; linarith [hM01.2, hR01.2, hC01.2]
  · intro h1 h2 h3
    have hM1 : M = 1 := by rw [hM, if_pos h1]
    have hC1 : C = 1 := by rw [hC, if_pos h3]
    have hR1 : R = 1 := by
      rw [hR, h2]
      by_cases ht : 0 < T.card
      · rw [if_pos ht, Finset.inter_self,
          div_self (by exact_mod_cast Nat.pos_iff_ne_zero.mp ht)]
      · rw [if_neg ht, if_pos (Nat.eq_zero_of_not_pos ht)]
    rw [hform, hM1, hR1, hC1]; norm_num

/-- C2 witness: an exactly matching prediction scores 1. -/
theorem c2_witness :
    routing_metric exFlagged
      ⟨"claude-sonnet-4-5-20250929", "claude", "medium", ["schema-migration"],
       "medium", "y"⟩ = 1 :=
  (c2_routing_metric exFlagged
    ⟨"claude-sonnet-4-5-20250929", "claude", "medium", ["schema-migration"],
     "medium", "y"⟩).2.2.2 rfl (by decide) rfl

/-- The six category names of RISK_PATTERNS are pairwise distinct. -/
lemma risk_keys_nodup : (RISK_PATTERNS.map Prod.fst).Nodup := by decide

/-- Every category threshold, and the default of 2, is at least 1. -/
lemma one_le_threshold (fp : String × List (String → Bool)) (h : fp ∈ RISK_PATTERNS) :
    1 ≤ (List.lookup fp.1 THRESHOLDS).getD 2 := by
  fin_cases h <;> decide

/-- C3: detect_risk_flags always returns a subset of the fixed six-flag
vocabulary; a flag appears only when the number of its category's
patterns matching the text reaches the category threshold, so a
category none of whose patterns match never appears. -/
theorem c3_risk_flags_vocabulary (prompt : String) :
    (∀ f ∈ detect_risk_flags prompt, f ∈ RISK_PATTERNS.map Prod.fst) ∧
    RISK_PATTERNS.map Prod.fst = ["modifies-existing-runtime", "schema-migration",
      "large-scope-refactor", "cross-service", "rsc-serialization",
      "test-infrastructure"] ∧
    (∀ fp ∈ RISK_PATTERNS, fp.1 ∈ detect_risk_flags prompt →
      (List.lookup fp.1 THRESHOLDS).getD 2 ≤ fp.2.countP (fun p => p prompt)) ∧
    (∀ fp ∈ RISK_PATTERNS, fp.2.all (fun p => !(p prompt)) = true →
      fp.1 ∉ detect_risk_flags prompt) := by
  have key : ∀ fp ∈ RISK_PATTERNS, fp.1 ∈ detect_risk_flags prompt →
      (List.lookup fp.1 THRESHOLDS).getD 2 ≤ fp.2.countP (fun p => p prompt) := by
    intro fp hfp hmem
    unfold detect_risk_flags at hmem
    obtain ⟨gq, hgqf, hgq1⟩ := List.mem_map.mp hmem
    have hgq := List.mem_filter.mp hgqf
    have hgqfp : gq = fp := List.inj_on_of_nodup_map risk_keys_nodup hgq.1 hfp hgq1
    subst hgqfp
    exact of_decide_eq_true hgq.2
  refine ⟨?_, by decide, key, ?_⟩
  · intro f hf
    unfold detect_risk_flags at hf
    obtain ⟨gq, hgqmem, rfl⟩ := List.mem_map.mp hf
    exact List.mem_map_of_mem _ (List.mem_of_mem_filter hgqmem)
  · intro fp hfp hall hmem
    have hle := key fp hfp hmem
    have hzero : fp.2.countP (fun p => p prompt) = 0 := by
      rw [List.countP_eq_zero]
      intro p hp
      have hfalse := List.all_eq_true.mp hall p hp
      simp only [Bool.not_eq_true'] at hfalse
      simp [hfalse]
    have hone := one_le_threshold fp hfp
    rw [hzero] at hle
    exact Nat.not_succ_le_zero 0 (le_trans hone hle)

/-- C3 witness: on "prisma migration" the schema-migration category is
emitted and its threshold is met; on "hello" no cross-service pattern
matches and the flag is absent. -/
theorem c3_witness :
    (List.lookup (RISK_PATTERNS.get ⟨1, by decide⟩).1 THRESHOLDS).getD 2 ≤
      (RISK_PATTERNS.get ⟨1, by decide⟩).2.countP (fun p => p "prisma migration") ∧
    (RISK_PATTERNS.get ⟨3, by decide⟩).1 ∉ detect_risk_flags "hello" :=
  ⟨(c3_risk_flags_vocabulary "prisma migration").2.2.1 _ (List.get_mem _ _ _) (by decide),
   (c3_risk_flags_vocabulary "hello").2.2.2 _ (List.get_mem _ _ _) (by decide)⟩

/-- classifyAux returns the first category whose pattern list has a
match, and the sentinel otherwise. -/
lemma classifyAux_eq_find (prompt : String) (l : List (String × List (String → Bool))) :
    classifyAux prompt l =
      ((l.find? (fun tp => tp.2.any (fun p => p prompt))).map Prod.fst).getD "unknown" := by
  induction l with
  | nil => rfl
  | cons hd tl ih =>
    obtain ⟨t, ps⟩ := hd
    by_cases h : ps.any (fun p => p prompt) = true
    · simp [classifyAux, List.find?, h]
    · simp only [Bool.not_eq_true] at h
      simp [classifyAux, List.find?, h, ih]

/-- C7: classify_task_type is total and deterministic: it returns the
label of the first category, in the order bugfix, refactor, test,
documentation, infrastructure, feature, having at least one matching
pattern, and exactly "unknown" when no pattern of any category
matches. -/
theorem c7_classify_first_match (prompt : String) :
    classify_task_type prompt =
      ((TASK_TYPE_PATTERNS.find? (fun tp => tp.2.any (fun p => p prompt))).map
        Prod.fst).getD "unknown" ∧
    TASK_TYPE_PATTERNS.map Prod.fst =
      ["bugfix", "refactor", "test", "documentation", "infrastructure", "feature"] ∧
    (TASK_TYPE_PATTERNS.all (fun tp => tp.2.all (fun p => !(p prompt))) = true →
      classify_task_type prompt = "unknown") := by
  have h1 := classifyAux_eq_find prompt TASK_TYPE_PATTERNS
  refine ⟨h1, by decide, ?_⟩
  intro hall
  have hnone : TASK_TYPE_PATTERNS.find? (fun tp => tp.2.any (fun p => p prompt)) = none := by
    rw [List.find?_eq_none]
    intro tp htp hb
    obtain ⟨p, hp, hpt⟩ := List.any_eq_true.mp hb
    have hfalse := List.all_eq_true.mp (List.all_eq_true.mp hall tp htp) p hp
    simp [hpt] at hfalse
  exact h1.trans (by rw [hnone]; rfl)

/-- C7 witness: a text matching no pattern classifies as "unknown". -/
theorem c7_witness : classify_task_type "hello" = "unknown" :=
  (c7_classify_first_match "hello").2.2 (by decide)

/-- C4: a per-example failure of the external selector is caught and
replaced by the safe default (heuristic baseline) prediction for that
example, a success is passed through unchanged, and the evaluation still
aggregates over every example: its reported n is the full example
count. -/
theorem c4_failure_substitution (selector : LabeledExample → Except String RoutingLabel)
    (examples : List LabeledExample) (label : String) :
    (∀ ex msg, selector ex = Except.error msg →
      optimized_predict selector ex = heuristic_baseline ex) ∧
    (∀ ex res, selector ex = Except.ok res → optimized_predict selector ex = res) ∧
    (evaluate_predictions examples (optimized_predict selector) label).n =
      examples.length := by
  refine ⟨?_, ?_, rfl⟩
  · intro ex msg h; simp [optimized_predict, h]
  · intro ex res h; simp [optimized_predict, h]

/-- C4 witness: with an always-failing selector the substituted
prediction is the heuristic baseline and the run still covers the whole
set. -/
theorem c4_witness :
    optimized_predict failingSelector exFlagged = heuristic_baseline exFlagged ∧
    (evaluate_predictions [exFlagged] (optimized_predict failingSelector) "opt").n = 1 :=
  ⟨(c4_failure_substitution failingSelector [exFlagged] "opt").1 exFlagged
      "model call failed" rfl,
   (c4_failure_substitution failingSelector [exFlagged] "opt").2.2⟩

/-- Examples without true risk flags leave the risk accumulators of the
evaluation loop unchanged. -/
lemma evalStep_preserves_risk (pf : LabeledExample → RoutingLabel) (a : EvalAcc)
    (ex : LabeledExample) (h : ex.risk_flags = []) :
    (evalStep pf a ex).total_risk_recall = a.total_risk_recall ∧
    (evalStep pf a ex).total_risk_precision = a.total_risk_precision ∧
    (evalStep pf a ex).risk_examples = a.risk_examples := by
  simp [evalStep, h]

/-- The risk accumulators after one step depend only on the risk
accumulators before it. -/
lemma evalStep_risk_congr (pf : LabeledExample → RoutingLabel) (a b : EvalAcc)
    (ex : LabeledExample)
    (h1 : a.total_risk_recall = b.total_risk_recall)
    (h2 : a.total_risk_precision = b.total_risk_precision)
    (h3 : a.risk_examples = b.risk_examples) :
    (evalStep pf a ex).total_risk_recall = (evalStep pf b ex).total_risk_recall ∧
    (evalStep pf a ex).total_risk_precision = (evalStep pf b ex).total_risk_precision ∧
    (evalStep pf a ex).risk_examples = (evalStep pf b ex).risk_examples := by
  by_cases hc : (if ex.risk_flags = [] then (∅ : Finset String)
      else ex.risk_flags.toFinset) ≠ ∅
  · simp only [evalStep, if_pos hc, h1, h2, h3]
    exact ⟨trivial, trivial, trivial⟩
  · simp only [evalStep, if_neg hc, h1, h2, h3]
    exact ⟨trivial, trivial, trivial⟩

/-- The risk accumulators of the evaluation fold are unchanged when the
examples without true flags are dropped. -/
lemma foldl_risk_filter (pf : LabeledExample → RoutingLabel) :
    ∀ (l : List LabeledExample) (a b : EvalAcc),
      a.total_risk_recall = b.total_risk_recall →
      a.total_risk_precision = b.total_risk_precision →
      a.risk_examples = b.risk_examples →
      (l.foldl (evalStep pf) a).total_risk_recall =
        ((l.filter (fun ex => !ex.risk_flags.isEmpty)).foldl
          (evalStep pf) b).total_risk_recall ∧
      (l.foldl (evalStep pf) a).total_risk_precision =
        ((l.filter (fun ex => !ex.risk_flags.isEmpty)).foldl
          (evalStep pf) b).total_risk_precision ∧
      (l.foldl (evalStep pf) a).risk_examples =
        ((l.filter (fun ex => !ex.risk_flags.isEmpty)).foldl
          (evalStep pf) b).risk_examples
  | [], a, b, h1, h2, h3 => ⟨h1, h2, h3⟩
  | ex :: l, a, b, h1, h2, h3 => by
    by_cases hflags : ex.risk_flags = []
    · have hfilter : (ex :: l).filter (fun e => !e.risk_flags.isEmpty) =
          l.filter (fun e => !e.risk_flags.isEmpty) := by
        simp [List.filter_cons, hflags]
      rw [hfilter, List.foldl_cons]
      have hp := evalStep_preserves_risk pf a ex hflags
      exact foldl_risk_filter pf l (evalStep pf a ex) b (hp.1.trans h1)
        (hp.2.1.trans h2) (hp.2.2.trans h3)
    · have hfilter : (ex :: l).filter (fun e => !e.risk_flags.isEmpty) =
          ex :: l.filter (fun e => !e.risk_flags.isEmpty) := by
        simp [List.filter_cons, hflags]
      rw [hfilter, List.foldl_cons, List.foldl_cons]
      have hc := evalStep_risk_congr pf a b ex h1 h2 h3
      exact foldl_risk_filter pf l _ _ hc.1 hc.2.1 hc.2.2

/-- C5: the risk recall and precision statistics of evaluate_predictions
are macro-averaged only over the examples with at least one true risk
flag: unflagged examples contribute to neither numerator nor
denominator; with no flagged example at all both report exactly 1; and
on a single flagged example whose prediction is a strict superset of the
true flags, risk_recall is 1 while risk_precision is strictly below
1. -/
theorem c5_risk_macro_average (examples : List LabeledExample)
    (predict_fn : LabeledExample → RoutingLabel) (label : String) :
    ((evaluate_predictions examples predict_fn label).risk_recall =
      (evaluate_predictions (examples.filter (fun ex => !ex.risk_flags.isEmpty))
        predict_fn label).risk_recall ∧
     (evaluate_predictions examples predict_fn label).risk_precision =
      (evaluate_predictions (examples.filter (fun ex => !ex.risk_flags.isEmpty))
        predict_fn label).risk_precision ∧
     (evaluate_predictions examples predict_fn label).risk_examples =
      (evaluate_predictions (examples.filter (fun ex => !ex.risk_flags.isEmpty))
        predict_fn label).risk_examples) ∧
    ((∀ ex ∈ examples, ex.risk_flags = []) →
      (evaluate_predictions examples predict_fn label).risk_recall = 1 ∧
      (evaluate_predictions examples predict_fn label).risk_precision = 1) ∧
    (∀ ex : LabeledExample, ex.risk_flags.toFinset ≠ ∅ →
      ex.risk_flags.toFinset ⊂ (predict_fn ex).risk_flags.toFinset →
      (evaluate_predictions [ex] predict_fn label).risk_recall = 1 ∧
      (evaluate_predictions [ex] predict_fn label).risk_precision < 1) := by
  have base := foldl_risk_filter predict_fn examples ⟨0, 0, 0, 0, 0⟩ ⟨0, 0, 0, 0, 0⟩
    rfl rfl rfl
  refine ⟨⟨?_, ?_, ?_⟩, ?_, ?_⟩
  · simp only [evaluate_predictions, base.1, base.2.2]
  · simp only [evaluate_predictions, base.2.1, base.2.2]
  · simp only [evaluate_predictions, base.2.2]
  · intro hall
    have hfe : examples.filter (fun ex => !ex.risk_flags.isEmpty) = [] := by
      rw [List.filter_eq_nil_iff]
      intro ex hex
      simp [hall ex hex]
    have hre : (examples.foldl (evalStep predict_fn) ⟨0, 0, 0, 0, 0⟩).risk_examples = 0 := by
      have hb := base.2.2
      rw [hfe] at hb
      exact hb
    constructor <;> simp [evaluate_predictions, hre]
  · intro ex hne hss
    have hlist : ex.risk_flags ≠ [] := by
      intro h
      apply hne
      rw [h]
      rfl
    have hsub : ex.risk_flags.toFinset ⊆ (predict_fn ex).risk_flags.toFinset := hss.subset
    have hinter : (predict_fn ex).risk_flags.toFinset ∩ ex.risk_flags.toFinset =
        ex.risk_flags.toFinset := Finset.inter_eq_right.mpr hsub
    have hTpos : 0 < ex.risk_flags.toFinset.card :=
      Finset.card_pos.mpr (Finset.nonempty_iff_ne_empty.mpr hne)
    have hPne : (predict_fn ex).risk_flags.toFinset ≠ ∅ := by
      intro h
      apply hne
      rw [h] at hsub
      exact Finset.subset_empty.mp hsub
    have hcard : ex.risk_flags.toFinset.card < (predict_fn ex).risk_flags.toFinset.card :=
      Finset.card_lt_card hss
    have hstep :
        (evalStep predict_fn ⟨0, 0, 0, 0, 0⟩ ex).total_risk_recall =
          ((ex.risk_flags.toFinset.card : ℚ) / (ex.risk_flags.toFinset.card : ℚ)) ∧
        (evalStep predict_fn ⟨0, 0, 0, 0, 0⟩ ex).total_risk_precision =
          ((ex.risk_flags.toFinset.card : ℚ) / ((predict_fn ex).risk_flags.toFinset.card : ℚ)) ∧
        (evalStep predict_fn ⟨0, 0, 0, 0, 0⟩ ex).risk_examples = 1 := by
      simp [evalStep, hlist, hne, hPne, hinter]
    have hfold : [ex].foldl (evalStep predict_fn) ⟨0, 0, 0, 0, 0⟩ =
        evalStep predict_fn ⟨0, 0, 0, 0, 0⟩ ex := rfl
    constructor
    · show (if ([ex].foldl (evalStep predict_fn) ⟨0, 0, 0, 0, 0⟩).risk_examples ≠ 0 then
          ([ex].foldl (evalStep predict_fn) ⟨0, 0, 0, 0, 0⟩).total_risk_recall /
            (([ex].foldl (evalStep predict_fn) ⟨0, 0, 0, 0, 0⟩).risk_examples : ℚ)
        else 1) = 1
      rw [hfold, hstep.1, hstep.2.2]
      rw [div_self (by exact_mod_cast hTpos.ne.symm)]
      norm_num
    · show (if ([ex].foldl (evalStep predict_fn) ⟨0, 0, 0, 0, 0⟩).risk_examples ≠ 0 then
          ([ex].foldl (evalStep predict_fn) ⟨0, 0, 0, 0, 0⟩).total_risk_precision /
            (([ex].foldl (evalStep predict_fn) ⟨0, 0, 0, 0, 0⟩).risk_examples : ℚ)
        else 1) < 1
      rw [hfold, hstep.2.1, hstep.2.2]
      have hPpos : (0 : ℚ) < ((predict_fn ex).risk_flags.toFinset.card : ℚ) := by
        exact_mod_cast hTpos.trans hcard
      have hlt : (ex.risk_flags.toFinset.card : ℚ) <
          ((predict_fn ex).risk_flags.toFinset.card : ℚ) := by exact_mod_cast hcard
      rw [if_pos (by norm_num)]
      push_cast
      rw [div_one]
      exact (div_lt_one hPpos).mpr hlt

/-- C5 witness: the macro-average conventions at concrete inputs: a set
with only an unflagged example reports 1 for both statistics, and the
over-flagging predictor on the flagged example gets recall 1 with
precision strictly below 1. -/
theorem c5_witness :
    ((evaluate_predictions [exUnflagged] overFlagging "h").risk_recall = 1 ∧
     (evaluate_predictions [exUnflagged] overFlagging "h").risk_precision = 1) ∧
    (evaluate_predictions [exFlagged] overFlagging "h").risk_recall = 1 ∧
    (evaluate_predictions [exFlagged] overFlagging "h").risk_precision < 1 :=
  ⟨(c5_risk_macro_average [exUnflagged] overFlagging "h").2.1
      (by intro ex hex; rw [List.mem_singleton] at hex; rw [hex]; rfl),
   (c5_risk_macro_average [exFlagged] overFlagging "h").2.2 exFlagged
      (by decide) (by decide)⟩

/-- C10 witness: the empty record has an absent score and gets the safe
default model with low confidence. -/
theorem c10_witness :
    (derive_optimal_routing ⟨none, none, none, none, none⟩).recommended_model =
      DEFAULT_MODEL ∧
    (derive_optimal_routing ⟨none, none, none, none, none⟩).confidence = "low" :=
  ⟨(c10_absent_score ⟨none, none, none, none, none⟩ rfl).1,
   (c10_absent_score ⟨none, none, none, none, none⟩ rfl).2.1⟩
